import Mathlib

/-!
Shallow embedding of the chore/completion core of the `pane` household
display server (`src/server/services/database.js`, `src/server/routes/api/chores.js`,
and the socket handlers in the server entry file), together with proofs about it.

Conventions of the embedding:
* SQLite rows are Lean structures; a table is a `List` of rows kept in insertion
  order, as SQLite returns rows for the queries the code issues.
* `AUTOINCREMENT` ids are modelled by explicit `next…Id` counters on the store.
* `CURRENT_TIMESTAMP` is an explicit `now : String` parameter.
* The sqlite driver can report an error on any statement; where a claim is about
  error behaviour, the operation takes a failure oracle saying which statement
  (if any) the driver fails on.
* The schema's `created_at` / `updated_at` audit columns are not tracked: no
  operation of the core reads them.
* Foreign keys are declared in the schema but the code never issues
  `PRAGMA foreign_keys = ON`, so (per SQLite's default) they are NOT enforced;
  the embedding therefore performs no foreign-key checks on insert.
-/

/-- Equality of `Except` results is decidable when both components are; used
to evaluate concrete instantiations of the theorems below. -/
instance {ε α : Type} [DecidableEq ε] [DecidableEq α] : DecidableEq (Except ε α) := fun x y =>
  match x, y with
  | .ok a, .ok b =>
    match decEq a b with
    | .isTrue h => .isTrue (congrArg Except.ok h)
    | .isFalse h => .isFalse fun hh => h (Except.ok.inj hh)
  | .error a, .error b =>
    match decEq a b with
    | .isTrue h => .isTrue (congrArg Except.error h)
    | .isFalse h => .isFalse fun hh => h (Except.error.inj hh)
  | .ok _, .error _ => .isFalse fun hh => Except.noConfusion hh
  | .error _, .ok _ => .isFalse fun hh => Except.noConfusion hh

/-- Row of `family_members` (id, name, color, role). -/
structure FamilyMember where
  id : Nat
  name : String
  color : String
  role : String
deriving DecidableEq

/-- Row of `chores`.  `description`, `assigned_to`, `due_date`, `completed_at`
are nullable columns, modelled with `Option`. -/
structure Chore where
  id : Nat
  title : String
  description : Option String
  assigned_to : Option Nat
  status : String
  priority : String
  due_date : Option String
  completed_at : Option String
  points : Int
  category : String
deriving DecidableEq

/-- Row of `chore_completions`. -/
structure CompletionRecord where
  id : Nat
  chore_id : Nat
  member_id : Nat
  completed_at : String
  points_earned : Int
deriving DecidableEq

/-- Row of `display_config` (key/value, both TEXT). -/
structure ConfigEntry where
  key : String
  value : String
deriving DecidableEq

/-- The whole persistent store: the four tables the core touches, plus the
`AUTOINCREMENT` counters. -/
structure Store where
  members : List FamilyMember
  chores : List Chore
  completions : List CompletionRecord
  configs : List ConfigEntry
  nextMemberId : Nat
  nextChoreId : Nat
  nextCompletionId : Nat
deriving DecidableEq

/-! ## completeChore (database.js lines 284-329)

The JS runs, inside `BEGIN TRANSACTION`:
1. `SELECT points FROM chores WHERE id = ?` — on driver error: `ROLLBACK` + reject.
   For a nonexistent id this is NOT an error: the row comes back `undefined`.
2. `UPDATE chores SET status = 'completed', completed_at = CURRENT_TIMESTAMP
   WHERE id = ?` — on driver error: `ROLLBACK` + reject.
3. In the UPDATE callback it builds the INSERT parameters `[choreId, memberId,
   chore.points]`.  When step 1 found no row, `chore` is `undefined` and reading
   `chore.points` throws a `TypeError` inside the sqlite3 callback; the promise
   executor has already returned, so the promise never settles and the open
   transaction is never committed (committed state unchanged).
4. `INSERT INTO chore_completions …` — on driver error: `ROLLBACK` + reject;
   otherwise `COMMIT` and resolve `true`.
-/

/-- The three sqlite statements of the complete-chore transaction on which the
driver could report an error. -/
inductive TxStep
  | readPoints
  | updStatus
  | insRecord
deriving DecidableEq

/-- Outcome of a `completeChore` call as seen by the caller: the promise
resolves (`ok`), rejects with the failing statement's error (`err`), or never
settles because of the `TypeError` on the missing row (`crash`). -/
inductive CCResult
  | ok
  | err (step : TxStep)
  | crash
deriving DecidableEq

/-- The CompletionRecord inserted by the transaction: next autoincrement id,
the two foreign ids as given, `completed_at` stamped now, `points_earned` the
points value that was read. -/
def newCompletion (s : Store) (choreId memberId : Nat) (now : String) (p : Int) :
    CompletionRecord :=
  { id := s.nextCompletionId, chore_id := choreId, member_id := memberId
    completed_at := now, points_earned := p }

/-- `Database.completeChore(choreId, memberId)`, returning the caller-visible
outcome together with the committed store state.  `fail` is the driver-failure
oracle for the three statements of the transaction. -/
def completeChore (s : Store) (choreId memberId : Nat) (now : String)
    (fail : TxStep → Bool) : CCResult × Store :=
  if fail .readPoints then (.err .readPoints, s)
  else
    let choreRow := s.chores.find? fun c => decide (c.id = choreId)
    if fail .updStatus then (.err .updStatus, s)
    else
      match choreRow with
      | none => (.crash, s)
      | some ch =>
        if fail .insRecord then (.err .insRecord, s)
        else
          let chores' := s.chores.map fun c =>
            if c.id = choreId then { c with status := "completed", completed_at := some now }
            else c
          (.ok, { s with chores := chores',
                         completions := s.completions ++ [newCompletion s choreId memberId now ch.points],
                         nextCompletionId := s.nextCompletionId + 1 })

/-- HTTP outcome of a route handler: a response with a status code, or no
response at all (the awaited promise never settles). -/
inductive HttpOutcome
  | responded (code : Nat)
  | hung
deriving DecidableEq

/-- `POST /api/chores/:choreId/complete` (chores.js lines 54-65): awaits
`completeChore`; 200 on resolve, 500 on reject; a never-settling promise means
no response is ever sent. -/
def completeRoute (s : Store) (choreId memberId : Nat) (now : String)
    (fail : TxStep → Bool) : HttpOutcome × Store :=
  match completeChore s choreId memberId now fail with
  | (.ok, s') => (.responded 200, s')
  | (.err _, s') => (.responded 500, s')
  | (.crash, s') => (.hung, s')

/-- A concrete member row used to instantiate theorems. -/
def member1 : FamilyMember := { id := 1, name := "Mom", color := "#E91E63", role := "admin" }

/-- A concrete pending chore row (id 1, 3 points) used to instantiate theorems. -/
def chore1 : Chore :=
  { id := 1, title := "Trash", description := none, assigned_to := some 1,
    status := "pending", priority := "normal", due_date := none,
    completed_at := none, points := 3, category := "general" }

/-- A concrete store used to instantiate theorems: the result of creating one
member (id 1) and one pending chore (id 1, 3 points) in a fresh store. -/
def store1 : Store :=
  { members := [member1]
    chores := [chore1]
    completions := []
    configs := []
    nextMemberId := 2
    nextChoreId := 2
    nextCompletionId := 1 }

/-- The same chore already completed, and the store holding it. -/
def chore2 : Chore := { chore1 with status := "completed", completed_at := some "t0" }

/-- Store whose only chore is already in status `completed`. -/
def store2 : Store := { store1 with chores := [chore2] }

/-- If `find?` locates `ch` in `l` by id, then after updating every row with
that id by an id-preserving `f`, `find?` locates `f ch`. -/
theorem find?_map_update (l : List Chore) (id : Nat) (ch : Chore) (f : Chore → Chore)
    (hf : ∀ c, (f c).id = c.id)
    (h : l.find? (fun c => decide (c.id = id)) = some ch) :
    (l.map fun c => if c.id = id then f c else c).find? (fun c => decide (c.id = id))
      = some (f ch) := by
  induction l with
  | nil => simp at h
  | cons a t ih =>
    by_cases ha : a.id = id
    · rw [List.find?_cons_of_pos _ (by simpa using ha)] at h
      obtain rfl : a = ch := by simpa using h
      simp only [List.map_cons, if_pos ha]
      exact List.find?_cons_of_pos _ (by simp [hf, ha])
    · rw [List.find?_cons_of_neg _ (by simpa using ha)] at h
      simp only [List.map_cons, if_neg ha]
      rw [List.find?_cons_of_neg _ (by simpa using ha)]
      exact ih h

/-- C1: a single `completeChore(choreId, memberId)` call on an existing chore
(no driver failure) resolves, leaves that chore with status `"completed"` and a
non-null `completed_at`, and appends exactly one new CompletionRecord whose
`points_earned` equals the chore's points as read at the start of the call. -/
theorem completeChore_single_call (s : Store) (choreId memberId : Nat) (now : String)
    (ch : Chore) (h : s.chores.find? (fun c => decide (c.id = choreId)) = some ch) :
    (completeChore s choreId memberId now fun _ => false).1 = CCResult.ok ∧
    (completeChore s choreId memberId now fun _ => false).2.chores.find?
        (fun c => decide (c.id = choreId))
      = some { ch with status := "completed", completed_at := some now } ∧
    (completeChore s choreId memberId now fun _ => false).2.completions
      = s.completions ++ [newCompletion s choreId memberId now ch.points] := by
  have hfind := find?_map_update s.chores choreId ch
    (fun c => { c with status := "completed", completed_at := some now }) (fun _ => rfl) h
  refine ⟨?_, ?_, ?_⟩ <;> simp [completeChore, h, hfind]

/-- Witness for `completeChore_single_call` at the concrete store `store1`. -/
theorem completeChore_single_call_witness :
    (completeChore store1 1 1 "t1" fun _ => false).1 = CCResult.ok :=
  (completeChore_single_call store1 1 1 "t1" chore1 (by decide)).1

/-- C2: the complete-chore transaction is atomic.  If the driver fails any of
the three statements, the committed store is unchanged and the caller is
rejected with that statement's error; if the call resolves, the status update
and the appended CompletionRecord are visible together. -/
theorem completeChore_atomic (s : Store) (choreId memberId : Nat) (now : String)
    (fail : TxStep → Bool) :
    (∀ st, (completeChore s choreId memberId now fail).1 = CCResult.err st →
      (completeChore s choreId memberId now fail).2 = s ∧ fail st = true) ∧
    ((completeChore s choreId memberId now fail).1 = CCResult.ok →
      ∃ ch, s.chores.find? (fun c => decide (c.id = choreId)) = some ch ∧
        (completeChore s choreId memberId now fail).2.chores
          = (s.chores.map fun c =>
              if c.id = choreId then { c with status := "completed", completed_at := some now }
              else c) ∧
        (completeChore s choreId memberId now fail).2.completions
          = s.completions ++ [newCompletion s choreId memberId now ch.points]) := by
  by_cases h1 : fail TxStep.readPoints
  · refine ⟨fun st hst => ?_, fun hok => ?_⟩
    · simp only [completeChore, h1, if_true] at hst ⊢
      obtain rfl : TxStep.readPoints = st := by simpa using hst
      exact ⟨trivial, h1⟩
    · simp [completeChore, h1] at hok
  · by_cases h2 : fail TxStep.updStatus
    · refine ⟨fun st hst => ?_, fun hok => ?_⟩
      · simp only [completeChore, h1, h2, if_true, if_false, Bool.false_eq_true] at hst ⊢
        obtain rfl : TxStep.updStatus = st := by simpa using hst
        exact ⟨trivial, h2⟩
      · simp [completeChore, h1, h2] at hok
    · cases hfind : s.chores.find? (fun c => decide (c.id = choreId)) with
      | none =>
        refine ⟨fun st hst => ?_, fun hok => ?_⟩
        · simp [completeChore, h1, h2, hfind] at hst
        · simp [completeChore, h1, h2, hfind] at hok
      | some ch =>
        by_cases h3 : fail TxStep.insRecord
        · refine ⟨fun st hst => ?_, fun hok => ?_⟩
          · simp only [completeChore, h1, h2, h3, hfind, if_true, if_false,
              Bool.false_eq_true] at hst ⊢
            obtain rfl : TxStep.insRecord = st := by simpa using hst
            exact ⟨trivial, h3⟩
          · simp [completeChore, h1, h2, h3, hfind] at hok
        · refine ⟨fun st hst => ?_, fun hok => ?_⟩
          · simp [completeChore, h1, h2, h3, hfind] at hst
          · exact ⟨ch, rfl, by simp [completeChore, h1, h2, h3, hfind]⟩

/-- Witness for `completeChore_atomic`: a driver failure on the INSERT leaves
`store1` unchanged. -/
theorem completeChore_atomic_witness :
    (completeChore store1 1 1 "t1" fun st => decide (st = TxStep.insRecord)).2 = store1 :=
  ((completeChore_atomic store1 1 1 "t1"
      (fun st => decide (st = TxStep.insRecord))).1 TxStep.insRecord (by decide)).1

/-- C9: calling `completeChore` on a chore that is already `"completed"`
resolves and appends a second CompletionRecord, leaving the earlier records
unchanged (the completions list is only extended at the end). -/
theorem completeChore_recomplete (s : Store) (choreId memberId : Nat) (now : String)
    (ch : Chore) (h : s.chores.find? (fun c => decide (c.id = choreId)) = some ch)
    (_hdone : ch.status = "completed") :
    (completeChore s choreId memberId now fun _ => false).1 = CCResult.ok ∧
    (completeChore s choreId memberId now fun _ => false).2.completions
      = s.completions ++ [newCompletion s choreId memberId now ch.points] := by
  refine ⟨?_, ?_⟩ <;> simp [completeChore, h]

/-- Witness for `completeChore_recomplete` at `store2`, whose chore is already
completed. -/
theorem completeChore_recomplete_witness :
    (completeChore store2 1 1 "t1" fun _ => false).1 = CCResult.ok :=
  (completeChore_recomplete store2 1 1 "t1" chore2 (by decide) (by decide)).1

/-- C4 counterexample: in `store1` no member has id 999, yet completing chore 1
for member 999 resolves and the route answers 200 (not a 500 failure); and no
chore has id 999, yet completing chore 999 does not produce a 500 either — the
promise never settles and the route hangs. -/
theorem completeRoute_missing_cex :
    (∀ m ∈ store1.members, m.id ≠ 999) ∧
    (completeRoute store1 1 999 "t1" fun _ => false).1 = HttpOutcome.responded 200 ∧
    (∀ c ∈ store1.chores, c.id ≠ 999) ∧
    completeRoute store1 999 1 "t1" (fun _ => false) = (HttpOutcome.hung, store1) := by
  decide

/-- C4 (amended): `completeChore` performs no existence check at all.  For a
chore id matching no chore the points read comes back empty, the `TypeError`
on reading its `points` keeps the promise from ever settling, and the route
sends no response (in particular not a 500); for an existing chore the call
resolves and the route answers 200 for every member id, existing or not. -/
theorem completeChore_no_existence_check (s : Store) (choreId memberId : Nat) (now : String) :
    (s.chores.find? (fun c => decide (c.id = choreId)) = none →
      completeRoute s choreId memberId now (fun _ => false) = (HttpOutcome.hung, s)) ∧
    (∀ ch, s.chores.find? (fun c => decide (c.id = choreId)) = some ch →
      (completeRoute s choreId memberId now fun _ => false).1 = HttpOutcome.responded 200) := by
  constructor
  · intro h
    simp [completeRoute, completeChore, h]
  · intro ch h
    simp [completeRoute, completeChore, h]

/-- Witness for `completeChore_no_existence_check`: chore id 999 is absent from
`store1` and the route hangs. -/
theorem completeChore_no_existence_check_witness :
    completeRoute store1 999 1 "t1" (fun _ => false) = (HttpOutcome.hung, store1) :=
  (completeChore_no_existence_check store1 999 1 "t1").1 (by decide)

/-! ## getChores (database.js lines 203-236)

The query is
`SELECT c.*, fm.name …, fm.color … FROM chores c LEFT JOIN family_members fm
ON c.assigned_to = fm.id [WHERE …] ORDER BY c.due_date ASC, c.priority DESC`.
The optional `WHERE` adds `c.status = ?` when the status argument is truthy and
`c.assigned_to = ?` when the assignedTo argument is truthy.  In SQLite a NULL
in an `ASC` ORDER BY term sorts BEFORE every non-NULL value, and TEXT values
compare bytewise; the result order of the query is therefore: due date
ascending with NULL due dates first, then priority as text, descending. -/

/-- SQLite's ordering on the nullable TEXT `due_date` column under `ASC`:
NULL sorts before every value, text compares lexicographically. -/
def dueLt : Option String → Option String → Prop
  | none, none => False
  | none, some _ => True
  | some _, none => False
  | some a, some b => a < b

instance (a b : Option String) : Decidable (dueLt a b) :=
  match a, b with
  | none, none => .isFalse id
  | none, some _ => .isTrue trivial
  | some _, none => .isFalse id
  | some x, some y => inferInstanceAs (Decidable (x < y))

/-- The row ordering produced by `ORDER BY c.due_date ASC, c.priority DESC`:
strictly earlier due date (NULL first), or same due date and
lexicographically-not-smaller priority. -/
def choreOrder (a b : Chore) : Prop :=
  dueLt a.due_date b.due_date ∨
    (¬ dueLt a.due_date b.due_date ∧ ¬ dueLt b.due_date a.due_date ∧
      b.priority ≤ a.priority)

instance : DecidableRel choreOrder := fun a b => by
  unfold choreOrder; infer_instance

theorem dueLt_trans {a b c : Option String} (h1 : dueLt a b) (h2 : dueLt b c) : dueLt a c := by
  match a, b, c with
  | none, none, _ => exact h1.elim
  | some _, none, _ => exact h1.elim
  | _, some _, none => exact h2.elim
  | none, some _, some _ => exact trivial
  | some x, some y, some z =>
    have hxy : x < y := h1
    have hyz : y < z := h2
    exact lt_trans hxy hyz

theorem eq_of_not_dueLt {a b : Option String} (h1 : ¬ dueLt a b) (h2 : ¬ dueLt b a) : a = b := by
  match a, b with
  | none, none => rfl
  | none, some _ => exact absurd trivial h1
  | some _, none => exact absurd trivial h2
  | some x, some y =>
    have hxy : ¬ x < y := h1
    have hyx : ¬ y < x := h2
    exact congrArg some (le_antisymm (not_lt.mp hyx) (not_lt.mp hxy))

theorem dueLt_irrefl (a : Option String) : ¬ dueLt a a := by
  cases a <;> simp [dueLt]

instance : IsTotal Chore choreOrder := by
  constructor
  intro a b
  by_cases hab : dueLt a.due_date b.due_date
  · exact Or.inl (Or.inl hab)
  · by_cases hba : dueLt b.due_date a.due_date
    · exact Or.inr (Or.inl hba)
    · rcases le_total b.priority a.priority with h | h
      · exact Or.inl (Or.inr ⟨hab, hba, h⟩)
      · exact Or.inr (Or.inr ⟨hba, hab, h⟩)

instance : IsTrans Chore choreOrder := by
  constructor
  intro a b c h1 h2
  rcases h1 with h1 | ⟨h1a, h1b, h1p⟩
  · rcases h2 with h2 | ⟨h2a, h2b, _⟩
    · exact Or.inl (dueLt_trans h1 h2)
    · exact Or.inl ((eq_of_not_dueLt h2a h2b) ▸ h1)
  · have hab : a.due_date = b.due_date := eq_of_not_dueLt h1a h1b
    rcases h2 with h2 | ⟨h2a, h2b, h2p⟩
    · exact Or.inl (hab ▸ h2)
    · have hbc : b.due_date = c.due_date := eq_of_not_dueLt h2a h2b
      have hac : a.due_date = c.due_date := hab.trans hbc
      exact Or.inr ⟨hac ▸ dueLt_irrefl c.due_date,
        (fun h => (dueLt_irrefl c.due_date) (hac ▸ h)), le_trans h2p h1p⟩

/-- The WHERE clause of `getChores`: a truthy status argument filters on
`c.status = ?`, a truthy assignedTo argument on `c.assigned_to = ?` (absent
filters are modelled as `none`). -/
def choreMatches (status : Option String) (assignedTo : Option Nat) (c : Chore) : Bool :=
  (match status with
   | none => true
   | some st => decide (c.status = st)) &&
  (match assignedTo with
   | none => true
   | some a => decide (c.assigned_to = some a))

/-- `Database.getChores(status, assignedTo)`: the filtered chore rows in the
order produced by `ORDER BY c.due_date ASC, c.priority DESC` (any sort that is
correct for `choreOrder`; insertion sort is the representative).  The LEFT JOIN
only adds the assignee's name/color to each row and does not affect which
chores appear or their order, so the embedding returns the chore rows. -/
def getChores (s : Store) (status : Option String) (assignedTo : Option Nat) : List Chore :=
  List.insertionSort choreOrder (s.chores.filter (choreMatches status assignedTo))

/-- The ordering the spec sentence describes instead, for comparison with
`choreOrder`: due date ascending with NULL due dates LAST, then priority
descending.  (Differs from the SQL's ordering only in where NULL sorts.) -/
def specDueLt : Option String → Option String → Prop
  | none, _ => False
  | some _, none => True
  | some a, some b => a < b

instance (a b : Option String) : Decidable (specDueLt a b) :=
  match a, b with
  | none, _ => .isFalse id
  | some _, none => .isTrue trivial
  | some x, some y => inferInstanceAs (Decidable (x < y))

/-- The spec's claimed row ordering (nulls-last variant of `choreOrder`). -/
def specChoreOrder (a b : Chore) : Prop :=
  specDueLt a.due_date b.due_date ∨
    (¬ specDueLt a.due_date b.due_date ∧ ¬ specDueLt b.due_date a.due_date ∧
      b.priority ≤ a.priority)

instance : DecidableRel specChoreOrder := fun a b => by
  unfold specChoreOrder; infer_instance

/-- A chore with a due date, used to exhibit the null-ordering of `getChores`. -/
def choreDated : Chore :=
  { id := 2, title := "Dishes", description := none, assigned_to := some 1,
    status := "pending", priority := "normal", due_date := some "2025-06-01",
    completed_at := none, points := 1, category := "general" }

/-- Store holding one chore with a NULL due date and one with a due date. -/
def store3 : Store := { store1 with chores := [chore1, choreDated], nextChoreId := 3 }

/-- C3 counterexample: with one NULL-due-date chore and one dated chore in the
store, the list `getChores` returns is NOT sorted in the spec's nulls-last
order — SQLite puts the NULL due date first, not last. -/
theorem getChores_nulls_last_cex :
    ¬ List.Sorted specChoreOrder (getChores store3 none none) := by
  decide

/-- C3 (amended): for every store and filter combination `getChores` returns a
list sorted by due date ascending with NULL due dates FIRST (SQLite's ASC
NULL ordering), then by priority descending, compared as text. -/
theorem getChores_sorted (s : Store) (status : Option String) (assignedTo : Option Nat) :
    List.Sorted choreOrder (getChores s status assignedTo) :=
  List.sorted_insertionSort choreOrder _

/-! ## addChore (database.js lines 238-266)

The JS destructures `{ title, description, assigned_to, due_date,
priority = 'normal', category = 'general', points = 1 }` from the input object
(any other property of the input, `status` and `completed_at` included, is
never read), throws `'Title is required for chores'` when `!title` (absent or
empty string — JS falsiness), and when `assigned_to` is truthy (present and
nonzero) throws when no member has that id.  Otherwise it INSERTs only the
seven destructured columns, so the schema defaults `status = 'pending'` and
`completed_at = NULL` apply to the new row. -/

/-- The caller-supplied chore object.  `none` models an absent property.
`status` and `completed_at` are listed because a caller may supply them; the
code never reads them. -/
structure ChoreInput where
  title : Option String := none
  description : Option String := none
  assigned_to : Option Nat := none
  due_date : Option String := none
  priority : Option String := none
  category : Option String := none
  points : Option Int := none
  status : Option String := none
  completed_at : Option String := none
deriving DecidableEq

/-- JS truthiness of the `title` property: absent and `""` are falsy. -/
def truthyTitle : Option String → Bool
  | none => false
  | some t => decide (t ≠ "")

/-- JS truthiness of the `assigned_to` property: absent and `0` are falsy. -/
def truthyAssigned : Option Nat → Bool
  | none => false
  | some n => decide (n ≠ 0)

/-- The row the INSERT of `addChore` creates: the seven listed columns from
the input (with the destructuring defaults), schema defaults for the rest. -/
def newChore (s : Store) (input : ChoreInput) : Chore :=
  { id := s.nextChoreId
    title := input.title.getD ""
    description := input.description
    assigned_to := input.assigned_to
    status := "pending"
    priority := input.priority.getD "normal"
    due_date := input.due_date
    completed_at := none
    points := input.points.getD 1
    category := input.category.getD "general" }

/-- `Database.addChore(chore)`: title falsiness check, then (only for a truthy
`assigned_to`) the member-existence check, then the INSERT. -/
def addChore (s : Store) (input : ChoreInput) : Except String Nat × Store :=
  if truthyTitle input.title then
    if truthyAssigned input.assigned_to &&
        (s.members.find? fun m => decide (some m.id = input.assigned_to)).isNone then
      (.error "Family member with the given ID does not exist", s)
    else
      (.ok s.nextChoreId,
        { s with chores := s.chores ++ [newChore s input],
                 nextChoreId := s.nextChoreId + 1 })
  else (.error "Title is required for chores", s)

/-- C5 counterexample: `assigned_to = 0` is set and matches no member of
`store1`, yet `addChore` succeeds and persists the row — JS falsiness of `0`
bypasses the member-existence check. -/
theorem addChore_zero_assignee_cex :
    (addChore store1 { title := some "T", assigned_to := some 0 }).1 = Except.ok 2 ∧
    (∀ m ∈ store1.members, m.id ≠ 0) ∧
    (addChore store1 { title := some "T", assigned_to := some 0 }).2.chores.length
      = store1.chores.length + 1 := by
  decide

/-- C5 (amended): a missing/empty title fails with the validation error, and a
NONZERO `assigned_to` matching no member fails with the reference error; in
both cases the store (hence the chore list) is unchanged.  An `assigned_to`
of 0 is falsy in JS and bypasses the check. -/
theorem addChore_validation (s : Store) (input : ChoreInput) :
    (truthyTitle input.title = false →
      addChore s input = (.error "Title is required for chores", s)) ∧
    (∀ n : Nat, truthyTitle input.title = true → input.assigned_to = some n → n ≠ 0 →
      (s.members.find? fun m => decide (some m.id = input.assigned_to)).isNone = true →
      addChore s input = (.error "Family member with the given ID does not exist", s)) := by
  constructor
  · intro h
    simp [addChore, h]
  · intro n ht ha hn hf
    have htr : truthyAssigned input.assigned_to = true := by
      simp [truthyAssigned, ha, hn]
    simp [addChore, ht, htr, hf]

/-- Witness for `addChore_validation`: assigning to the nonexistent member 99
in `store1` is rejected and the store is unchanged. -/
theorem addChore_validation_witness :
    addChore store1 { title := some "Trash", assigned_to := some 99 }
      = (.error "Family member with the given ID does not exist", store1) :=
  (addChore_validation store1 { title := some "Trash", assigned_to := some 99 }).2
    99 (by decide) rfl (by decide) (by decide)

/-- C10: whatever the input object holds — `status` and `completed_at`
included — every chore `addChore` successfully creates is appended with status
`"pending"` and a NULL `completed_at` (the INSERT writes only the seven listed
columns; the schema defaults cover the rest). -/
theorem addChore_schema_defaults (s : Store) (input : ChoreInput)
    (h : (addChore s input).1.isOk = true) :
    ∃ c, (addChore s input).2.chores = s.chores ++ [c] ∧
      c.status = "pending" ∧ c.completed_at = none := by
  by_cases h1 : truthyTitle input.title
  · by_cases h2 : (truthyAssigned input.assigned_to &&
        (s.members.find? fun m => decide (some m.id = input.assigned_to)).isNone) = true
    · simp [addChore, h1, h2, Except.isOk, Except.toBool] at h
    · exact ⟨newChore s input, by simp [addChore, h1, h2], rfl, rfl⟩
  · simp [addChore, h1, Except.isOk, Except.toBool] at h

/-- An input that tries to smuggle in `status` and `completed_at`. -/
def inputSmuggled : ChoreInput :=
  { title := some "Sweep", status := some "completed", completed_at := some "t9" }

/-- Witness for `addChore_schema_defaults`: a chore created with a
caller-supplied `status` and `completed_at` still comes out pending. -/
theorem addChore_schema_defaults_witness :
    ∃ c, (addChore store1 inputSmuggled).2.chores = store1.chores ++ [c] ∧
      c.status = "pending" ∧ c.completed_at = none :=
  addChore_schema_defaults store1 inputSmuggled (by decide)

/-! ## updateChore (database.js lines 268-282)

The JS builds
`UPDATE chores SET ${setClause}, updated_at = CURRENT_TIMESTAMP WHERE id = ?`
where `setClause` joins `Object.keys(updates)` as `key = ?`.  SQLite rejects
the statement itself in two cases the builder can produce: an empty update
object yields `SET , updated_at = …` (a syntax error), and a key that is not a
column of `chores` yields a no-such-column error; both reject the promise.
Otherwise the statement runs and resolves with `this.changes`, the number of
rows whose id matched (0 for a nonexistent id, without error). -/

/-- A JSON scalar as it arrives in an update object. -/
inductive JsVal
  | str (s : String)
  | num (n : Int)
  | null
deriving DecidableEq

/-- The value as SQLite TEXT (none for NULL). -/
def JsVal.asText : JsVal → Option String
  | .str s => some s
  | .num n => some (toString n)
  | .null => none

/-- The value as a nullable row id. -/
def JsVal.asNatOpt : JsVal → Option Nat
  | .num n => if n < 0 then none else some n.toNat
  | .str s => s.toNat?
  | .null => none

/-- The value as INTEGER, keeping `d` on NULL. -/
def JsVal.asInt (v : JsVal) (d : Int) : Int :=
  match v with
  | .num n => n
  | .str s => s.toInt?.getD 0
  | .null => d

/-- Columns of the `chores` table (the set of keys the dynamic SET clause may
name without a no-such-column error). -/
def choreColumns : List String :=
  ["id", "title", "description", "assigned_to", "status", "priority",
   "due_date", "completed_at", "points", "category", "created_at", "updated_at"]

/-- One `key = ?` assignment of the SET clause applied to a row
(`created_at` / `updated_at` are not tracked by the embedding). -/
def setField (c : Chore) (k : String) (v : JsVal) : Chore :=
  if k = "title" then { c with title := v.asText.getD c.title }
  else if k = "description" then { c with description := v.asText }
  else if k = "assigned_to" then { c with assigned_to := v.asNatOpt }
  else if k = "status" then { c with status := v.asText.getD c.status }
  else if k = "priority" then { c with priority := v.asText.getD c.priority }
  else if k = "due_date" then { c with due_date := v.asText }
  else if k = "completed_at" then { c with completed_at := v.asText }
  else if k = "points" then { c with points := v.asInt c.points }
  else if k = "category" then { c with category := v.asText.getD c.category }
  else if k = "id" then { c with id := v.asNatOpt.getD c.id }
  else c

/-- `Database.updateChore(id, updates)`: rejects when the generated SQL is
malformed (empty SET clause) or names an unknown column, otherwise resolves
with the number of matched rows after applying the assignments to them. -/
def updateChore (s : Store) (id : Nat) (updates : List (String × JsVal)) :
    Except String Nat × Store :=
  if updates.isEmpty then
    (.error "SQLITE_ERROR: incomplete SET clause: syntax error", s)
  else if updates.any fun kv => !(choreColumns.contains kv.1) then
    (.error "SQLITE_ERROR: no such column", s)
  else
    (.ok (s.chores.filter fun c => decide (c.id = id)).length,
      { s with chores := s.chores.map fun c =>
          if c.id = id then updates.foldl (fun c kv => setField c kv.1 kv.2) c else c })

/-- `PUT /api/chores/:choreId` (chores.js lines 27-41): 404 when
`updateChore` resolves with 0 changes, 200 on a positive count, 500 when it
rejects. -/
def putChoreRoute (s : Store) (id : Nat) (updates : List (String × JsVal)) :
    HttpOutcome × Store :=
  match updateChore s id updates with
  | (.error _, s') => (.responded 500, s')
  | (.ok 0, s') => (.responded 404, s')
  | (.ok _, s') => (.responded 200, s')

/-- C6 counterexample: no chore of `store1` has id 9999, yet `updateChore`
with the empty update object throws (the generated SQL is malformed) instead
of returning zero rows affected, and the route answers 500, not 404. -/
theorem updateChore_empty_cex :
    (∀ c ∈ store1.chores, c.id ≠ 9999) ∧
    (updateChore store1 9999 []).1
      = Except.error "SQLITE_ERROR: incomplete SET clause: syntax error" ∧
    putChoreRoute store1 9999 [] = (HttpOutcome.responded 500, store1) := by
  decide

/-- C6 (amended): for an id matching no chore and every NONEMPTY update object
whose keys are `chores` columns, `updateChore` resolves with zero rows
affected, the store is unchanged, and the route maps the zero count to 404;
the empty update object instead generates malformed SQL and rejects. -/
theorem updateChore_missing_id (s : Store) (id : Nat) (updates : List (String × JsVal))
    (hno : ∀ c ∈ s.chores, c.id ≠ id)
    (hne : updates ≠ [])
    (hcols : ∀ kv ∈ updates, choreColumns.contains kv.1 = true) :
    updateChore s id updates = (.ok 0, s) ∧
    putChoreRoute s id updates = (.responded 404, s) := by
  have h1 : updates.isEmpty = false := by
    cases updates with
    | nil => exact absurd rfl hne
    | cons _ _ => rfl
  have h2 : (updates.any fun kv => !(choreColumns.contains kv.1)) = false := by
    rw [List.any_eq_false]
    intro kv hkv
    simpa using hcols kv hkv
  have h3 : (s.chores.filter fun c => decide (c.id = id)) = [] := by
    rw [List.filter_eq_nil_iff]
    intro c hc
    simpa using hno c hc
  have h4 : (s.chores.map fun c =>
      if c.id = id then updates.foldl (fun c kv => setField c kv.1 kv.2) c else c)
      = s.chores := by
    have hpt : ∀ c ∈ s.chores,
        (if c.id = id then updates.foldl (fun c kv => setField c kv.1 kv.2) c else c)
          = (fun c => c) c := by
      intro c hc
      exact if_neg (hno c hc)
    rw [List.map_congr_left hpt, List.map_id']
  have hupd : updateChore s id updates = (.ok 0, s) := by
    simp only [updateChore, h1, h2, h3, h4, Bool.false_eq_true, if_false, List.length_nil]
  refine ⟨hupd, ?_⟩
  simp only [putChoreRoute, hupd]

/-- Witness for `updateChore_missing_id`: a status update aimed at the absent
id 9999 in `store1` resolves with zero changes. -/
theorem updateChore_missing_id_witness :
    updateChore store1 9999 [("status", JsVal.str "completed")] = (Except.ok 0, store1) :=
  (updateChore_missing_id store1 9999 [("status", JsVal.str "completed")]
    (by decide) (by decide) (by decide)).1

/-! ## insertDefaultConfig (database.js lines 113-152)

Startup seeding: seven `INSERT OR IGNORE INTO display_config` statements (one
per default key, inserting only when the key is absent), then
`SELECT COUNT(*) FROM family_members` and — only when the count is zero —
four member INSERTs. -/

/-- The seven default configuration rows. -/
def defaultConfigs : List (String × String) :=
  [("current_view", "dashboard"), ("photo_rotation_interval", "30000"),
   ("calendar_refresh_interval", "300000"), ("display_brightness", "80"),
   ("sleep_schedule_enabled", "0"), ("sleep_start_time", "22:00"),
   ("wake_time", "07:00")]

/-- The four default family members (name, color, role). -/
def defaultMembers : List (String × String × String) :=
  [("Mom", "#E91E63", "admin"), ("Dad", "#3F51B5", "admin"),
   ("Child 1", "#4CAF50", "member"), ("Child 2", "#FF9800", "member")]

/-- `INSERT OR IGNORE INTO display_config`: inserts only when the key is
absent. -/
def insertOrIgnoreConfig (s : Store) (kv : String × String) : Store :=
  if s.configs.any fun e => decide (e.key = kv.1) then s
  else { s with configs := s.configs ++ [{ key := kv.1, value := kv.2 }] }

/-- The four default-member INSERTs. -/
def seedMembers (s : Store) : Store :=
  defaultMembers.foldl
    (fun st m =>
      { st with
          members := st.members ++
            [{ id := st.nextMemberId, name := m.1, color := m.2.1, role := m.2.2 }],
          nextMemberId := st.nextMemberId + 1 })
    s

/-- `Database.insertDefaultConfig()`: insert-if-absent for the seven config
keys, then seed the four members only when the member count is zero. -/
def insertDefaultConfig (s : Store) : Store :=
  let s1 := defaultConfigs.foldl insertOrIgnoreConfig s
  if s1.members.length = 0 then seedMembers s1 else s1

/-- C7: seeding a fresh (empty) store inserts exactly 4 default members and 7
default config rows; seeding a store that already has members and all seven
default config keys changes nothing. -/
theorem insertDefaultConfig_seed :
    (∀ s : Store, s.members = [] → s.configs = [] →
      (insertDefaultConfig s).members.length = 4 ∧
      (insertDefaultConfig s).configs.length = 7) ∧
    (∀ s : Store, s.members ≠ [] →
      (∀ kv ∈ defaultConfigs, (s.configs.any fun e => decide (e.key = kv.1)) = true) →
      insertDefaultConfig s = s) := by
  constructor
  · intro s hm hc
    obtain ⟨mem, cho, com, con, ni, nj, nk⟩ := s
    replace hm : mem = [] := hm
    replace hc : con = [] := hc
    subst hm
    subst hc
    refine ⟨?_, ?_⟩ <;>
      simp [insertDefaultConfig, insertOrIgnoreConfig, seedMembers,
        defaultConfigs, defaultMembers]
  · intro s hm hp
    have key : ∀ kv ∈ defaultConfigs, insertOrIgnoreConfig s kv = s := by
      intro kv hkv
      simp [insertOrIgnoreConfig, hp kv hkv]
    have hfold : ∀ l : List (String × String), (∀ kv ∈ l, insertOrIgnoreConfig s kv = s) →
        l.foldl insertOrIgnoreConfig s = s := by
      intro l
      induction l with
      | nil => intro _; rfl
      | cons a t ih =>
        intro h
        rw [List.foldl_cons, h a (by simp)]
        exact ih fun kv hkv => h kv (by simp [hkv])
    show (if (defaultConfigs.foldl insertOrIgnoreConfig s).members.length = 0 then
        seedMembers (defaultConfigs.foldl insertOrIgnoreConfig s)
      else defaultConfigs.foldl insertOrIgnoreConfig s) = s
    rw [hfold defaultConfigs key, if_neg]
    simpa [List.length_eq_zero] using hm

/-- The store as opened for the first time: every table empty. -/
def emptyStore : Store :=
  { members := [], chores := [], completions := [], configs := []
    nextMemberId := 1, nextChoreId := 1, nextCompletionId := 1 }

/-- Witness for `insertDefaultConfig_seed`: seeding the empty store gives 4
members and 7 config rows, and seeding the result again changes nothing. -/
theorem insertDefaultConfig_seed_witness :
    (insertDefaultConfig emptyStore).members.length = 4 ∧
    (insertDefaultConfig emptyStore).configs.length = 7 ∧
    insertDefaultConfig (insertDefaultConfig emptyStore) = insertDefaultConfig emptyStore := by
  refine ⟨(insertDefaultConfig_seed.1 emptyStore rfl rfl).1,
    (insertDefaultConfig_seed.1 emptyStore rfl rfl).2,
    insertDefaultConfig_seed.2 (insertDefaultConfig emptyStore) (by decide) (by decide)⟩

/-! ## Real-time channel (server entry file, `io.on('connection')`)

Each of the three client events is handled by an `io.emit(...)`, which in
socket.io delivers the payload to every currently connected socket — the
sender included; nothing is persisted.  The handlers map `switch-view` to
`view-changed`, `config-update` to `config-changed` and `chore-update` to
`chore-changed`, forwarding the payload unchanged. -/

/-- The three events a client can publish on the channel. -/
inductive ClientEvent
  | switchView
  | configUpdate
  | choreUpdate
deriving DecidableEq

/-- The event name under which a received event is re-broadcast. -/
def changedName : ClientEvent → String
  | .switchView => "view-changed"
  | .configUpdate => "config-changed"
  | .choreUpdate => "chore-changed"

/-- Handling one received event: `io.emit` sends one message (re-named, same
payload) to every connected socket; the handler does not depend on which
socket sent it. -/
def handleClientEvent (connected : List Nat) (sender : Nat) (ev : ClientEvent)
    (payload : String) : List (Nat × String × String) :=
  let _ := sender
  connected.map fun cid => (cid, changedName ev, payload)

/-- C8: every received event is re-broadcast, under the corresponding
`*-changed` name and with the same payload, to exactly the connected clients —
the sender included when connected. -/
theorem broadcast_to_all (connected : List Nat) (sender : Nat) (ev : ClientEvent)
    (payload : String) :
    (∀ cid ∈ connected,
      (cid, changedName ev, payload) ∈ handleClientEvent connected sender ev payload) ∧
    (handleClientEvent connected sender ev payload).length = connected.length ∧
    (∀ out ∈ handleClientEvent connected sender ev payload,
      out.1 ∈ connected ∧ out.2.1 = changedName ev ∧ out.2.2 = payload) ∧
    (sender ∈ connected →
      (sender, changedName ev, payload) ∈ handleClientEvent connected sender ev payload) ∧
    changedName .switchView = "view-changed" ∧
    changedName .configUpdate = "config-changed" ∧
    changedName .choreUpdate = "chore-changed" := by
  refine ⟨?_, ?_, ?_, ?_, rfl, rfl, rfl⟩
  · intro cid hc
    exact List.mem_map_of_mem _ hc
  · simp [handleClientEvent]
  · intro out hout
    simp only [handleClientEvent] at hout
    obtain ⟨cid, hc, rfl⟩ := List.mem_map.mp hout
    exact ⟨hc, rfl, rfl⟩
  · intro hs
    exact List.mem_map_of_mem _ hs

/-- Witness for `broadcast_to_all`: on a channel with clients 3 and 7, client
7 publishing `switch-view` receives its own `view-changed` echo. -/
theorem broadcast_to_all_witness :
    (7, changedName ClientEvent.switchView, "dashboard")
      ∈ handleClientEvent [3, 7] 7 ClientEvent.switchView "dashboard" :=
  (broadcast_to_all [3, 7] 7 ClientEvent.switchView "dashboard").2.2.2.1 (by decide)
